import Mathlib

/-!
Verification of the coverage aggregation and normalization layer of the
mtn-coverage-checker repository.

The development shallowly embeds `src/src/utils/mtnApi.ts` (class `MTNApi`)
and `src/src/utils/apiClient.ts` (class `ApiClient`). JavaScript numbers
used for coordinates, timestamps and quality scores are modelled as
rationals and integers; the Web Mercator projection, which is genuinely
transcendental, is modelled over the reals. The network is modelled as an
explicit transport oracle: each `fetch` an `MTNApi` method performs is one
`FetchOutcome`, covering a thrown error, a non-2xx response, and a 2xx
response with a parsed JSON body. The mutable per-instance cache
(`this.cache`, a JS `Map`) is explicit state threaded through
`checkCoverage`.
-/

namespace MTNCoverage

/-- Value of one property of a GeoJSON feature, as far as the code inspects
it: `analyzeCoverageFeatures` only distinguishes numeric values
(`typeof value === 'number'`) from everything else. -/
inductive JsProp where
  | num (q : ℚ)
  | other
deriving DecidableEq

/-- A GeoJSON feature as inspected by the code: only the `properties`
object matters, and it may be absent (`if (feature.properties)`).
JS object keys are unique, property lookup is by name. -/
structure Feature where
  properties : Option (List (String × JsProp))
deriving DecidableEq

/-- The signalProps array of `analyzeCoverageFeatures` (mtnApi.ts line 458). -/
def signalProps : List String :=
  ["signal", "strength", "quality", "level", "power", "rssi"]

/-- JS object property lookup `props[prop]` on a key-unique object. -/
def propLookup (props : List (String × JsProp)) (k : String) : Option JsProp :=
  (props.find? (fun p => p.1 == k)).map (fun p => p.2)

/-- Math.round: round to nearest integer, halves toward positive infinity. -/
def jsRound (q : ℚ) : ℤ := ⌊q + 1 / 2⌋

/-- The techQuality default table of `analyzeCoverageFeatures`
(mtnApi.ts lines 476-485), with the `|| 70` fallback for technologies
missing from the table. -/
def defaultQuality (tech : String) : ℤ :=
  if tech = "2G" then 60
  else if tech = "3G" then 70
  else if tech = "4G" then 85
  else if tech = "5G" then 95
  else if tech = "UNCAPPED_WIRELESS" then 80
  else if tech = "FIBRE" then 98
  else if tech = "FIXED_LTE" then 75
  else 70

/-- Result of `analyzeCoverageFeatures`: a strength tier string and a
quality score. -/
structure Analysis where
  strength : String
  quality : ℤ
deriving DecidableEq

/-- One step of the forEach loop of `analyzeCoverageFeatures`
(mtnApi.ts lines 452-468): for each signal property name, a numeric and
strictly positive value is added to the running total and count. -/
def featureAccum (acc : ℚ × ℕ) (f : Feature) : ℚ × ℕ :=
  match f.properties with
  | none => acc
  | some props =>
    signalProps.foldl
      (fun a p =>
        match propLookup props p with
        | some (JsProp.num v) => if 0 < v then (a.1 + v, a.2 + 1) else a
        | _ => a)
      acc

/-- The local `quality` variable of analyzeCoverageFeatures
(mtnApi.ts lines 470-486): the rounded average of the accumulated positive
numeric signal values, or the per-technology default when none were
found. -/
def analyzeQuality (features : List Feature) (techType : String) : ℤ :=
  if 0 < (features.foldl featureAccum (0, 0)).2 then
    jsRound ((features.foldl featureAccum (0, 0)).1 /
      ((features.foldl featureAccum (0, 0)).2 : ℚ))
  else defaultQuality techType

/-- analyzeCoverageFeatures (mtnApi.ts lines 443-495): average the
positive numeric signal properties, or fall back to the per-technology
default; derive the strength tier from the pre-clamp quality and the
feature count; return the quality clamped to [0, 100]. -/
def analyzeCoverageFeatures (features : List Feature) (techType : String) : Analysis :=
  if features.length = 0 then { strength := "low", quality := 0 }
  else
    { strength :=
        if 85 ≤ analyzeQuality features techType ∧ 3 ≤ features.length then "high"
        else if 65 ≤ analyzeQuality features techType ∨ 2 ≤ features.length then
          "medium"
        else "low",
      quality := min 100 (max 0 (analyzeQuality features techType)) }

/-- getTechnologyDescription (mtnApi.ts lines 500-511). -/
def getTechnologyDescription (tech : String) : String :=
  if tech = "2G" then "Legacy Network"
  else if tech = "3G" then "Enhanced Network"
  else if tech = "4G" then "LTE Network"
  else if tech = "5G" then "5G Network"
  else if tech = "UNCAPPED_WIRELESS" then "Fixed Wireless Access"
  else if tech = "FIBRE" then "Fibre Network"
  else if tech = "FIXED_LTE" then "Fixed LTE Access"
  else "Network Coverage"

/-- Outcome of one `fetch` against the coverage transport, as far as the
code inspects it: the fetch or the body parsing throws, the response is
non-2xx (`response.ok` false), or it is 2xx with a JSON body whose
`features` field is absent or is a feature list. -/
inductive FetchOutcome where
  | throws (msg : String)
  | httpError (status : ℕ)
  | okJson (features : Option (List Feature))
deriving DecidableEq

/-- A normalized per-technology observation, the object built by
`checkTechnologyCoverage` on success (mtnApi.ts lines 402-410). -/
structure TechObservation where
  type : String
  available : Bool
  strength : String
  quality : ℤ
  infrastructureType : String
  features : List Feature
deriving DecidableEq

/-- checkTechnologyCoverage (mtnApi.ts lines 349-421). A 2xx JSON response
with a non-empty `features` list yields an observation; an empty or absent
feature list, a non-2xx response (the else branch that only logs), and any
thrown error (the catch clause, which logs and returns null) all yield no
observation. -/
def checkTechnologyCoverage (techType : String) (resp : FetchOutcome) :
    Option TechObservation :=
  match resp with
  | FetchOutcome.okJson (some fs) =>
    if 0 < fs.length then
      let a := analyzeCoverageFeatures fs techType
      some { type := techType, available := true, strength := a.strength,
             quality := a.quality,
             infrastructureType := getTechnologyDescription techType,
             features := fs }
    else none
  | FetchOutcome.okJson none => none
  | FetchOutcome.httpError _ => none
  | FetchOutcome.throws _ => none

/-- Keys of the technologyLayers object (mtnApi.ts lines 16-71) in
insertion order, the order `Object.entries` yields in
`getRealMTNCoverage`. -/
def technologyList : List String :=
  ["ALL", "2G", "3G", "4G", "5G", "UNCAPPED_WIRELESS", "FIBRE",
   "LICENSED_WIRELESS", "FIXED_LTE"]

/-- Per-technology error record of `getRealMTNCoverage`
(mtnApi.ts line 321). -/
structure TechError where
  tech : String
  error : String
deriving DecidableEq

/-- One entry of the `coverage` object of a CoverageResult, keyed by data
source name. The bodies of the fallback-source entries are opaque to every
claim, so only the fields the code branches on are kept. -/
inductive SourceEntry where
  | mtnGeoServer (types : List TechObservation) (errors : List TechError)
  | publicQuery
  | coveragePoint
  | wmsFeatures (features : List Feature)
  | consumerApi
deriving DecidableEq

/-- The transport oracle: the outcome of each fetch `checkCoverage` can
perform on one call — one WMS GetFeatureInfo per technology layer, plus
the four fallback endpoints. -/
structure Transport where
  wms : String → FetchOutcome
  publicQ : FetchOutcome
  pointQ : FetchOutcome
  infoQ : FetchOutcome
  consumerQ : FetchOutcome

/-- getRealMTNCoverage (mtnApi.ts lines 308-344). Each technology layer is
probed via `checkTechnologyCoverage`; non-null observations are collected.
Because `checkTechnologyCoverage` catches every error internally and
returns null, the catch clause of this loop (which would push onto the
local errors array) is unreachable, so the mtnGeoServer entry always
carries an empty errors list. With zero observations the method returns
null. -/
def getRealMTNCoverage (t : Transport) : Option SourceEntry :=
  let avail := technologyList.filterMap
    (fun tech => checkTechnologyCoverage tech (t.wms tech))
  if avail.length = 0 then none
  else some (SourceEntry.mtnGeoServer avail [])

/-- tryPublicCoverageQuery (mtnApi.ts lines 167-198): a 2xx JSON response
yields a `publicQuery` coverage entry; a non-2xx response falls through to
`return null`, and a thrown error is caught, logged and yields null. -/
def tryPublicCoverageQuery (o : FetchOutcome) : Option (String × SourceEntry) :=
  match o with
  | FetchOutcome.okJson _ => some ("publicQuery", SourceEntry.publicQuery)
  | FetchOutcome.httpError _ => none
  | FetchOutcome.throws _ => none

/-- tryCoverageApiPoint (mtnApi.ts lines 200-228), same shape. -/
def tryCoverageApiPoint (o : FetchOutcome) : Option (String × SourceEntry) :=
  match o with
  | FetchOutcome.okJson _ => some ("coveragePoint", SourceEntry.coveragePoint)
  | FetchOutcome.httpError _ => none
  | FetchOutcome.throws _ => none

/-- tryWMSFeatureInfo (mtnApi.ts lines 230-270): on a 2xx JSON response the
entry records `data.features || []`. -/
def tryWMSFeatureInfo (o : FetchOutcome) : Option (String × SourceEntry) :=
  match o with
  | FetchOutcome.okJson fs => some ("wmsFeatures", SourceEntry.wmsFeatures (fs.getD []))
  | FetchOutcome.httpError _ => none
  | FetchOutcome.throws _ => none

/-- tryAlternativeEndpoint (mtnApi.ts lines 272-302), same shape as
tryPublicCoverageQuery. -/
def tryAlternativeEndpoint (o : FetchOutcome) : Option (String × SourceEntry) :=
  match o with
  | FetchOutcome.okJson _ => some ("consumerApi", SourceEntry.consumerApi)
  | FetchOutcome.httpError _ => none
  | FetchOutcome.throws _ => none

/-- One entry of the errors array of a CoverageResult. In the TypeScript
type the endpoint is `number | string`; it is modelled as a string (the
only error the code can actually produce uses the string tag
"validation"). -/
structure CoverageError where
  endpoint : String
  error : String
deriving DecidableEq

/-- The CoverageResult record (src/src/types/index.ts). The ISO timestamp
string is abstracted to the integer clock value; the coverage object is an
association list keyed by source name. -/
structure CoverageResult where
  success : Bool
  lat : ℚ
  lng : ℚ
  address : String
  province : String
  timestamp : ℤ
  coverage : List (String × SourceEntry)
  errors : List CoverageError
deriving DecidableEq

/-- Object.assign of one source entry into the coverage object: existing
keys are overwritten in place, new keys are appended. -/
def objSet (m : List (String × SourceEntry)) (kv : String × SourceEntry) :
    List (String × SourceEntry) :=
  if m.any (fun p => p.1 == kv.1) then
    m.map (fun p => if p.1 == kv.1 then kv else p)
  else m ++ [kv]

/-- The saBounds object (mtnApi.ts lines 73-78). -/
structure Bounds where
  north : ℚ
  south : ℚ
  east : ℚ
  west : ℚ

def saBounds : Bounds := { north := -22, south := -35, east := 33, west := 16 }

/-- isInSouthAfrica (mtnApi.ts lines 634-639). -/
def isInSouthAfrica (lat lng : ℚ) : Bool :=
  decide (saBounds.south ≤ lat) && decide (lat ≤ saBounds.north) &&
  decide (saBounds.west ≤ lng) && decide (lng ≤ saBounds.east)

/-- The ordered province envelope table of getProvince
(mtnApi.ts lines 641-652): name, latitude range, longitude range. -/
def provinceTable : List (String × (ℚ × ℚ) × (ℚ × ℚ)) :=
  [("Gauteng", (-26.5, -25.0), (27.5, 29.0)),
   ("Western Cape", (-34.5, -31.0), (17.5, 21.0)),
   ("KwaZulu-Natal", (-31.5, -27.0), (28.5, 33.0)),
   ("Eastern Cape", (-33.5, -30.0), (22.0, 28.5)),
   ("Limpopo", (-25.5, -22.0), (26.5, 31.5)),
   ("Mpumalanga", (-26.5, -24.0), (28.5, 32.0)),
   ("North West", (-27.5, -24.0), (22.0, 28.5)),
   ("Free State", (-30.0, -26.5), (24.0, 29.5)),
   ("Northern Cape", (-32.0, -26.0), (16.0, 26.0))]

/-- getProvince (mtnApi.ts lines 641-661): first envelope containing the
point wins, otherwise "Unknown". -/
def getProvince (lat lng : ℚ) : String :=
  match provinceTable.find? (fun p =>
      decide (p.2.1.1 ≤ lat) && decide (lat ≤ p.2.1.2) &&
      decide (p.2.2.1 ≤ lng) && decide (lng ≤ p.2.2.2)) with
  | some p => p.1
  | none => "Unknown"

/-- One cache slot (mtnApi.ts line 80): the stored result and the
`Date.now()` millisecond timestamp at insertion. -/
structure CacheEntry where
  data : CoverageResult
  timestamp : ℤ
deriving DecidableEq

/-- The `this.cache` JS Map, as an association list with unique keys in
insertion order. -/
abbrev Cache := List (String × CacheEntry)

/-- cacheTimeout (mtnApi.ts line 81): five minutes in milliseconds. -/
def cacheTimeout : ℤ := 300000

/-- Map.get. -/
def mapGet (c : Cache) (k : String) : Option CacheEntry :=
  (c.find? (fun p => p.1 == k)).map (fun p => p.2)

/-- Map.set: overwrite in place if the key exists, else append. -/
def mapSet (c : Cache) (k : String) (v : CacheEntry) : Cache :=
  if c.any (fun p => p.1 == k) then
    c.map (fun p => if p.1 == k then (k, v) else p)
  else c ++ [(k, v)]

/-- Map.delete. -/
def mapDelete (c : Cache) (k : String) : Cache :=
  c.filter (fun p => !(p.1 == k))

/-- addToCache (mtnApi.ts lines 663-668). -/
def addToCache (c : Cache) (key : String) (data : CoverageResult) (now : ℤ) : Cache :=
  mapSet c key { data := data, timestamp := now }

/-- getFromCache (mtnApi.ts lines 670-677): a stored entry is returned
while `now - timestamp` is strictly below the timeout; otherwise — and
also when the key is absent — the key is deleted and null is returned.
The returned pair is (returned value, cache state after the call). -/
def getFromCache (c : Cache) (key : String) (now : ℤ) :
    Option CoverageResult × Cache :=
  match mapGet c key with
  | some e =>
    if now - e.timestamp < cacheTimeout then (some e.data, c)
    else (none, mapDelete c key)
  | none => (none, mapDelete c key)

/-- Number.prototype.toFixed(4): round half away from zero to four decimal
digits (binary floating-point artifacts are abstracted away) and print
with exactly four digits after the point. -/
def jsToFixed4 (q : ℚ) : String :=
  let n : ℤ := if 0 ≤ q then ⌊q * 10000 + 1 / 2⌋ else -⌊-(q * 10000) + 1 / 2⌋
  let m := n.natAbs
  let fracStr := toString (m % 10000)
  let pad := String.mk (List.replicate (4 - fracStr.length) '0')
  (if n < 0 then "-" else "") ++ toString (m / 10000) ++ "." ++ pad ++ fracStr

/-- The cache key of checkCoverage (mtnApi.ts line 98). -/
def cacheKey (lat lng : ℚ) : String := jsToFixed4 lat ++ "," ++ jsToFixed4 lng

/-- The `address || lat + ", " + lng` default (mtnApi.ts lines 89 and 106)
with JS falsiness: an absent and an empty address both fall back. The JS
number-to-string formatting is abstracted by printing the rationals. -/
def addressOr (lat lng : ℚ) (address : Option String) : String :=
  match address with
  | some s => if s = "" then toString lat ++ ", " ++ toString lng else s
  | none => toString lat ++ ", " ++ toString lng

/-- The early-return result of checkCoverage for out-of-bounds coordinates
(mtnApi.ts lines 85-95). -/
def validationResult (lat lng : ℚ) (address : Option String) (now : ℤ) :
    CoverageResult :=
  { success := false, lat := lat, lng := lng,
    address := addressOr lat lng address, province := "Unknown",
    timestamp := now, coverage := [],
    errors := [{ endpoint := "validation",
                 error := "Coordinates are outside South Africa" }] }

/-- The freshly initialised results record of checkCoverage
(mtnApi.ts lines 104-112). -/
def baseResult (lat lng : ℚ) (address : Option String) (now : ℤ) :
    CoverageResult :=
  { success := false, lat := lat, lng := lng,
    address := addressOr lat lng address,
    province := getProvince lat lng, timestamp := now,
    coverage := [], errors := [] }

/-- The fallback tier of checkCoverage (mtnApi.ts lines 128-148): the four
endpoint attempts are settled and the fulfilled non-null values are merged
into the coverage object in order. Each try-function catches its own
errors and resolves with null instead of rejecting, so the rejected branch
of the forEach (which would push onto results.errors) never runs. -/
def fallbackCoverage (t : Transport) : List (String × SourceEntry) :=
  [tryPublicCoverageQuery t.publicQ, tryCoverageApiPoint t.pointQ,
   tryWMSFeatureInfo t.infoQ, tryAlternativeEndpoint t.consumerQ].foldl
    (fun acc o =>
      match o with
      | some kv => objSet acc kv
      | none => acc) []

/-- Result of one checkCoverage call: the returned CoverageResult, the
cache state after the call, and how many transport fetches were issued. -/
structure CheckOutcome where
  result : CoverageResult
  cache : Cache
  transportCalls : ℕ

/-- checkCoverage (mtnApi.ts lines 83-165). Out-of-bounds coordinates
return the validation failure before any cache or transport activity.
Otherwise the cache is consulted (and lazily pruned); on a miss the WMS
tier runs one fetch per technology layer, and only if it yields nothing do
the four fallback endpoints run. Successful results are written through
the cache. -/
def checkCoverage (lat lng : ℚ) (address : Option String) (now : ℤ)
    (t : Transport) (cache : Cache) : CheckOutcome :=
  if isInSouthAfrica lat lng = false then
    { result := validationResult lat lng address now, cache := cache,
      transportCalls := 0 }
  else
    match (getFromCache cache (cacheKey lat lng) now).1 with
    | some data =>
      { result := data, cache := (getFromCache cache (cacheKey lat lng) now).2,
        transportCalls := 0 }
    | none =>
      match getRealMTNCoverage t with
      | some entry =>
        let res := { baseResult lat lng address now with
                     coverage := [("mtnGeoServer", entry)], success := true }
        { result := res,
          cache := addToCache (getFromCache cache (cacheKey lat lng) now).2
                     (cacheKey lat lng) res now,
          transportCalls := technologyList.length }
      | none =>
        let cov := fallbackCoverage t
        let res := { baseResult lat lng address now with
                     coverage := cov, success := decide (0 < cov.length) }
        { result := res,
          cache := if 0 < cov.length then
                     addToCache (getFromCache cache (cacheKey lat lng) now).2
                       (cacheKey lat lng) res now
                   else (getFromCache cache (cacheKey lat lng) now).2,
          transportCalls := technologyList.length + 4 }

/-- A response from the Vercel proxy as `ApiClient.parseCoverageResult`
inspects it: a possibly-present `type` tag, a possibly-present string
`content`, and — for a JSON feature collection passed through verbatim —
a `features` list. -/
structure ProxyResponse where
  type : Option String
  content : Option String
  features : Option (List Feature)
deriving DecidableEq

/-- JS truthiness of a possibly-absent string field. -/
def truthyStr (s : Option String) : Bool :=
  match s with
  | some s => !(s == "")
  | none => false

/-- Substring containment, used for the `content.includes(...)` checks. -/
def containsSub (s pat : String) : Bool := (s.splitOn pat).length != 1

/-- parseCoverageResult (apiClient.ts lines 182-201): only wrapped text
responses (checked for no-coverage markers) and wrapped binary responses
count as coverage; anything else — including a JSON feature collection
passed through verbatim — is conservatively treated as no coverage. -/
def parseCoverageResult (result : Option ProxyResponse) : Bool :=
  match result with
  | none => false
  | some r =>
    if r.type == some "text" && truthyStr r.content then
      let content := (r.content.getD "").toLower
      !(containsSub content "no features") && !(containsSub content "outside") &&
        !(content.trim == "")
    else if r.type == some "binary" && truthyStr r.content then true
    else false

/-- convertToSphericalMercator (mtnApi.ts lines 427-438) over the reals:
forward spherical Web Mercator with Earth radius 6378137 m. -/
noncomputable def convertToSphericalMercator (lat lng : ℝ) : ℝ × ℝ :=
  (lng * Real.pi / 180 * 6378137,
   Real.log (Real.tan (lat * Real.pi / 180 / 2 + Real.pi / 4)) * 6378137)

/-- Modelled from the spec: the standard inverse spherical Mercator
formula. The repository contains only the forward projection; the spec's
round-trip property supplies the inverse against which the forward
projection is checked. -/
noncomputable def inverseSphericalMercator (x y : ℝ) : ℝ × ℝ :=
  ((2 * Real.arctan (Real.exp (y / 6378137)) - Real.pi / 2) * 180 / Real.pi,
   x / 6378137 * 180 / Real.pi)

/-! Helper lemmas: reduction of `checkCoverage` per control-flow branch,
and preservation of the success-coverage invariant through the cache. -/

theorem isInSouthAfrica_iff (lat lng : ℚ) :
    isInSouthAfrica lat lng = true ↔
      (-35 ≤ lat ∧ lat ≤ -22 ∧ 16 ≤ lng ∧ lng ≤ 33) := by
  simp [isInSouthAfrica, saBounds, and_assoc]

theorem isInSouthAfrica_eq_false {lat lng : ℚ}
    (h : ¬ (-35 ≤ lat ∧ lat ≤ -22 ∧ 16 ≤ lng ∧ lng ≤ 33)) :
    isInSouthAfrica lat lng = false := by
  cases hB : isInSouthAfrica lat lng with
  | false => rfl
  | true => exact absurd ((isInSouthAfrica_iff lat lng).mp hB) h

theorem checkCoverage_out_of_bounds (lat lng : ℚ) (address : Option String)
    (now : ℤ) (t : Transport) (cache : Cache)
    (h : isInSouthAfrica lat lng = false) :
    checkCoverage lat lng address now t cache =
      { result := validationResult lat lng address now, cache := cache,
        transportCalls := 0 } := by
  simp [checkCoverage, h]

theorem checkCoverage_hit (lat lng : ℚ) (address : Option String) (now : ℤ)
    (t : Transport) (cache : Cache) (r : CoverageResult)
    (h : isInSouthAfrica lat lng = true)
    (hG : (getFromCache cache (cacheKey lat lng) now).1 = some r) :
    checkCoverage lat lng address now t cache =
      { result := r, cache := (getFromCache cache (cacheKey lat lng) now).2,
        transportCalls := 0 } := by
  simp [checkCoverage, h, hG]

theorem checkCoverage_miss_real (lat lng : ℚ) (address : Option String)
    (now : ℤ) (t : Transport) (cache : Cache) (entry : SourceEntry)
    (h : isInSouthAfrica lat lng = true)
    (hG : (getFromCache cache (cacheKey lat lng) now).1 = none)
    (hR : getRealMTNCoverage t = some entry) :
    checkCoverage lat lng address now t cache =
      { result := { baseResult lat lng address now with
                    coverage := [("mtnGeoServer", entry)], success := true },
        cache := addToCache (getFromCache cache (cacheKey lat lng) now).2
                   (cacheKey lat lng)
                   { baseResult lat lng address now with
                     coverage := [("mtnGeoServer", entry)], success := true } now,
        transportCalls := technologyList.length } := by
  simp [checkCoverage, h, hG, hR]

theorem checkCoverage_miss_fallback (lat lng : ℚ) (address : Option String)
    (now : ℤ) (t : Transport) (cache : Cache)
    (h : isInSouthAfrica lat lng = true)
    (hG : (getFromCache cache (cacheKey lat lng) now).1 = none)
    (hR : getRealMTNCoverage t = none) :
    checkCoverage lat lng address now t cache =
      { result := { baseResult lat lng address now with
                    coverage := fallbackCoverage t,
                    success := decide (0 < (fallbackCoverage t).length) },
        cache := if 0 < (fallbackCoverage t).length then
                   addToCache (getFromCache cache (cacheKey lat lng) now).2
                     (cacheKey lat lng)
                     { baseResult lat lng address now with
                       coverage := fallbackCoverage t,
                       success := decide (0 < (fallbackCoverage t).length) } now
                 else (getFromCache cache (cacheKey lat lng) now).2,
        transportCalls := technologyList.length + 4 } := by
  simp [checkCoverage, h, hG, hR]

/-- The invariant C2 claims of every returned result. -/
def ResultWF (r : CoverageResult) : Prop := r.success = true ↔ r.coverage ≠ []

/-- A cache is well formed when every stored result satisfies the
invariant; `checkCoverage` only ever stores such results. -/
def CacheWF (c : Cache) : Prop := ∀ p ∈ c, ResultWF p.2.data

theorem cacheWF_nil : CacheWF [] := by
  intro p hp
  exact absurd hp (List.not_mem_nil p)

theorem cacheWF_mapDelete {c : Cache} (h : CacheWF c) (k : String) :
    CacheWF (mapDelete c k) := by
  intro p hp
  exact h p (List.mem_of_mem_filter hp)

theorem cacheWF_mapSet {c : Cache} (h : CacheWF c) {k : String} {v : CacheEntry}
    (hv : ResultWF v.data) : CacheWF (mapSet c k v) := by
  intro p hp
  unfold mapSet at hp
  split at hp
  · rcases List.mem_map.mp hp with ⟨q, hq, rfl⟩
    split
    · exact hv
    · exact h q hq
  · rcases List.mem_append.mp hp with hq | hq
    · exact h p hq
    · rw [List.mem_singleton.mp hq]
      exact hv

theorem cacheWF_getFromCache {c : Cache} (h : CacheWF c) (k : String) (now : ℤ) :
    CacheWF (getFromCache c k now).2 := by
  unfold getFromCache
  cases mapGet c k with
  | none => exact cacheWF_mapDelete h k
  | some e =>
    dsimp only
    split
    · exact h
    · exact cacheWF_mapDelete h k

theorem mapGet_mem {c : Cache} {k : String} {e : CacheEntry}
    (h : mapGet c k = some e) : ∃ p ∈ c, p.2 = e := by
  unfold mapGet at h
  rcases Option.map_eq_some'.mp h with ⟨p, hf, hpe⟩
  exact ⟨p, List.mem_of_find?_eq_some hf, hpe⟩

theorem getFromCache_hit_WF {c : Cache} (h : CacheWF c) {k : String} {now : ℤ}
    {r : CoverageResult} (hr : (getFromCache c k now).1 = some r) :
    ResultWF r := by
  unfold getFromCache at hr
  cases hm : mapGet c k with
  | none => rw [hm] at hr; simp at hr
  | some e =>
    rw [hm] at hr
    dsimp only at hr
    split at hr
    · simp only [Option.some_inj] at hr
      rcases mapGet_mem hm with ⟨p, hp, hpe⟩
      rw [← hr, ← hpe]
      exact h p hp
    · simp at hr

/-- A transport on which every fetch fails, used as a concrete oracle. -/
def failingTransport : Transport :=
  { wms := fun _ => FetchOutcome.throws "Failed to fetch",
    publicQ := FetchOutcome.throws "Failed to fetch",
    pointQ := FetchOutcome.throws "Failed to fetch",
    infoQ := FetchOutcome.throws "Failed to fetch",
    consumerQ := FetchOutcome.throws "Failed to fetch" }

/-- C1: for every coordinate pair outside the configured South Africa
envelope (lat in [-35, -22], lng in [16, 33]), checkCoverage returns
success false with province "Unknown" and exactly one validation error
entry, and performs no transport call. -/
theorem c1_out_of_bounds_validation (lat lng : ℚ) (address : Option String)
    (now : ℤ) (t : Transport) (cache : Cache)
    (h : ¬ (-35 ≤ lat ∧ lat ≤ -22 ∧ 16 ≤ lng ∧ lng ≤ 33)) :
    (checkCoverage lat lng address now t cache).result.success = false ∧
    (checkCoverage lat lng address now t cache).result.province = "Unknown" ∧
    (checkCoverage lat lng address now t cache).result.errors =
      [{ endpoint := "validation",
         error := "Coordinates are outside South Africa" }] ∧
    (checkCoverage lat lng address now t cache).transportCalls = 0 := by
  rw [checkCoverage_out_of_bounds lat lng address now t cache
    (isInSouthAfrica_eq_false h)]
  exact ⟨rfl, rfl, rfl, rfl⟩

theorem c1_out_of_bounds_validation_witness :
    (¬ ((-35 : ℚ) ≤ 0 ∧ (0 : ℚ) ≤ -22 ∧ (16 : ℚ) ≤ 0 ∧ (0 : ℚ) ≤ 33)) ∧
    ((checkCoverage 0 0 none 0 failingTransport []).result.success = false ∧
     (checkCoverage 0 0 none 0 failingTransport []).result.province = "Unknown" ∧
     (checkCoverage 0 0 none 0 failingTransport []).result.errors =
       [{ endpoint := "validation",
          error := "Coordinates are outside South Africa" }] ∧
     (checkCoverage 0 0 none 0 failingTransport []).transportCalls = 0) :=
  ⟨by decide,
   c1_out_of_bounds_validation 0 0 none 0 failingTransport [] (by decide)⟩

/-- C10: for every coordinate pair outside the South Africa bounds,
checkCoverage leaves the cache exactly as it was and the returned result
does not depend on the cache contents (no cache read, write, or key
derivation), with zero transport calls. -/
theorem c10_out_of_bounds_cache_frame (lat lng : ℚ) (address : Option String)
    (now : ℤ) (t : Transport) (cache : Cache)
    (h : ¬ (-35 ≤ lat ∧ lat ≤ -22 ∧ 16 ≤ lng ∧ lng ≤ 33)) :
    (checkCoverage lat lng address now t cache).cache = cache ∧
    (checkCoverage lat lng address now t cache).transportCalls = 0 ∧
    ∀ cache2 : Cache, (checkCoverage lat lng address now t cache2).result =
      (checkCoverage lat lng address now t cache).result := by
  have hb := isInSouthAfrica_eq_false h
  rw [checkCoverage_out_of_bounds lat lng address now t cache hb]
  refine ⟨rfl, rfl, fun cache2 => ?_⟩
  rw [checkCoverage_out_of_bounds lat lng address now t cache2 hb]

theorem c10_out_of_bounds_cache_frame_witness :
    (¬ ((-35 : ℚ) ≤ 40 ∧ (40 : ℚ) ≤ -22 ∧ (16 : ℚ) ≤ 7 ∧ (7 : ℚ) ≤ 33)) ∧
    ((checkCoverage 40 7 none 0 failingTransport
        [("k", { data := validationResult 0 0 none 0, timestamp := 0 })]).cache =
       [("k", { data := validationResult 0 0 none 0, timestamp := 0 })] ∧
     (checkCoverage 40 7 none 0 failingTransport
        [("k", { data := validationResult 0 0 none 0, timestamp := 0 })]).transportCalls = 0 ∧
     ∀ cache2 : Cache, (checkCoverage 40 7 none 0 failingTransport cache2).result =
       (checkCoverage 40 7 none 0 failingTransport
         [("k", { data := validationResult 0 0 none 0, timestamp := 0 })]).result) :=
  ⟨by decide,
   c10_out_of_bounds_cache_frame 40 7 none 0 failingTransport
     [("k", { data := validationResult 0 0 none 0, timestamp := 0 })] (by decide)⟩

/-- C2: every CoverageResult returned by checkCoverage (from a cache whose
entries were themselves produced by checkCoverage) has success true
exactly when its coverage map is non-empty, and the cache stays well
formed. The errors list plays no role in this invariant. -/
theorem c2_success_iff_coverage (lat lng : ℚ) (address : Option String)
    (now : ℤ) (t : Transport) (cache : Cache) (hWF : CacheWF cache) :
    ((checkCoverage lat lng address now t cache).result.success = true ↔
      (checkCoverage lat lng address now t cache).result.coverage ≠ []) ∧
    CacheWF (checkCoverage lat lng address now t cache).cache := by
  cases hSA : isInSouthAfrica lat lng with
  | false =>
    rw [checkCoverage_out_of_bounds lat lng address now t cache hSA]
    exact ⟨by simp [validationResult], hWF⟩
  | true =>
    cases hG : (getFromCache cache (cacheKey lat lng) now).1 with
    | some r =>
      rw [checkCoverage_hit lat lng address now t cache r hSA hG]
      exact ⟨getFromCache_hit_WF hWF hG, cacheWF_getFromCache hWF _ _⟩
    | none =>
      cases hR : getRealMTNCoverage t with
      | some entry =>
        rw [checkCoverage_miss_real lat lng address now t cache entry hSA hG hR]
        constructor
        · simp
        · exact cacheWF_mapSet (cacheWF_getFromCache hWF _ _) (by simp [ResultWF])
      | none =>
        rw [checkCoverage_miss_fallback lat lng address now t cache hSA hG hR]
        constructor
        · simp [List.length_pos]
        · dsimp only
          split
          · exact cacheWF_mapSet (cacheWF_getFromCache hWF _ _)
              (by simp [ResultWF, List.length_pos])
          · exact cacheWF_getFromCache hWF _ _

theorem c2_success_iff_coverage_witness :
    CacheWF [] ∧
    (((checkCoverage 0 0 none 0 failingTransport []).result.success = true ↔
       (checkCoverage 0 0 none 0 failingTransport []).result.coverage ≠ []) ∧
     CacheWF (checkCoverage 0 0 none 0 failingTransport []).cache) :=
  ⟨cacheWF_nil, c2_success_iff_coverage 0 0 none 0 failingTransport [] cacheWF_nil⟩

/-- A feature with one positive numeric signal property. -/
def featTest : Feature := { properties := some [("signal", JsProp.num 50)] }

/-- A transport where only the 4G layer succeeds (with one feature) and
every other fetch throws. -/
def partialTransport : Transport :=
  { wms := fun tech =>
      if tech = "4G" then FetchOutcome.okJson (some [featTest])
      else FetchOutcome.throws "Failed to fetch",
    publicQ := FetchOutcome.throws "Failed to fetch",
    pointQ := FetchOutcome.throws "Failed to fetch",
    infoQ := FetchOutcome.throws "Failed to fetch",
    consumerQ := FetchOutcome.throws "Failed to fetch" }

/-- C3 (amended): on an in-bounds cache miss where technology `a`'s
transport call throws and technology `b`'s call succeeds with at least one
feature, the result has success true and contains an observation for `b`,
but the failure of `a` is swallowed by `checkTechnologyCoverage`'s catch
clause (logged to the console only): the result's errors list is empty and
the mtnGeoServer entry's errors list is empty, so no error entry
references `a`. -/
theorem c3_partial_success_no_error_entry (lat lng : ℚ)
    (address : Option String) (now : ℤ) (t : Transport) (cache : Cache)
    (hin : isInSouthAfrica lat lng = true)
    (hmiss : (getFromCache cache (cacheKey lat lng) now).1 = none)
    (a : String) (ha : a ∈ technologyList) (msg : String)
    (hfa : t.wms a = FetchOutcome.throws msg)
    (b : String) (hb : b ∈ technologyList)
    (fs : List Feature) (hfb : t.wms b = FetchOutcome.okJson (some fs))
    (hfs : fs ≠ []) :
    (checkCoverage lat lng address now t cache).result.success = true ∧
    (∃ types, (checkCoverage lat lng address now t cache).result.coverage =
        [("mtnGeoServer", SourceEntry.mtnGeoServer types [])] ∧
      ∃ o ∈ types, o.type = b) ∧
    (checkCoverage lat lng address now t cache).result.errors = [] := by
  obtain ⟨o, ho, hot⟩ :
      ∃ o, checkTechnologyCoverage b (t.wms b) = some o ∧ o.type = b := by
    rw [hfb]
    simp only [checkTechnologyCoverage]
    rw [if_pos (List.length_pos.mpr hfs)]
    exact ⟨_, rfl, rfl⟩
  have hmem : o ∈ technologyList.filterMap
      (fun tech => checkTechnologyCoverage tech (t.wms tech)) :=
    List.mem_filterMap.mpr ⟨b, hb, ho⟩
  have hne : ¬ (technologyList.filterMap
      (fun tech => checkTechnologyCoverage tech (t.wms tech))).length = 0 := by
    intro hlen
    rw [List.length_eq_zero] at hlen
    rw [hlen] at hmem
    exact absurd hmem (List.not_mem_nil o)
  have hR : getRealMTNCoverage t = some (SourceEntry.mtnGeoServer
      (technologyList.filterMap
        (fun tech => checkTechnologyCoverage tech (t.wms tech))) []) := by
    simp only [getRealMTNCoverage]
    rw [if_neg hne]
  rw [checkCoverage_miss_real lat lng address now t cache _ hin hmiss hR]
  exact ⟨rfl, ⟨_, rfl, o, hmem, hot⟩, rfl⟩

theorem c3_partial_success_no_error_entry_witness :
    (isInSouthAfrica (-26) 28 = true ∧
     (getFromCache [] (cacheKey (-26) 28) 0).1 = none ∧
     "2G" ∈ technologyList ∧
     partialTransport.wms "2G" = FetchOutcome.throws "Failed to fetch" ∧
     "4G" ∈ technologyList ∧
     partialTransport.wms "4G" = FetchOutcome.okJson (some [featTest]) ∧
     [featTest] ≠ []) ∧
    ((checkCoverage (-26) 28 none 0 partialTransport []).result.success = true ∧
     (∃ types, (checkCoverage (-26) 28 none 0 partialTransport []).result.coverage =
         [("mtnGeoServer", SourceEntry.mtnGeoServer types [])] ∧
       ∃ o ∈ types, o.type = "4G") ∧
     (checkCoverage (-26) 28 none 0 partialTransport []).result.errors = []) :=
  ⟨⟨by decide, rfl, by decide, rfl, by decide, rfl, by decide⟩,
   c3_partial_success_no_error_entry (-26) 28 none 0 partialTransport []
     (by decide) rfl "2G" (by decide) "Failed to fetch" rfl "4G" (by decide)
     [featTest] rfl (by decide)⟩

/-- C3 counterexample to the claim as stated: at (-26, 28) with an empty
cache, the 2G fetch throws and the 4G fetch succeeds with one feature; the
result is successful, yet its errors list is empty — it contains no error
entry referencing the failing technology 2G, contrary to the claim. -/
theorem c3_counterexample :
    partialTransport.wms "2G" = FetchOutcome.throws "Failed to fetch" ∧
    partialTransport.wms "4G" = FetchOutcome.okJson (some [featTest]) ∧
    (checkCoverage (-26) 28 none 0 partialTransport []).result.success = true ∧
    (checkCoverage (-26) 28 none 0 partialTransport []).result.errors = [] := by
  with_unfolding_all decide

/-- C4 (amended): checkCoverage is total over every combination of
per-source transport outcomes — every per-source failure is caught inside
the source function itself — and in the total-failure case (in-bounds
cache miss, every technology probe yields no observation, every fallback
endpoint fails) the result has success false and empty coverage, but its
errors list is empty: the per-source failures are logged to the console
and swallowed, not folded into the result. -/
theorem c4_total_failure_empty_errors (lat lng : ℚ) (address : Option String)
    (now : ℤ) (t : Transport) (cache : Cache)
    (hin : isInSouthAfrica lat lng = true)
    (hmiss : (getFromCache cache (cacheKey lat lng) now).1 = none)
    (hwms : ∀ tech ∈ technologyList,
      checkTechnologyCoverage tech (t.wms tech) = none)
    (hp : tryPublicCoverageQuery t.publicQ = none)
    (hc : tryCoverageApiPoint t.pointQ = none)
    (hw : tryWMSFeatureInfo t.infoQ = none)
    (hcon : tryAlternativeEndpoint t.consumerQ = none) :
    (checkCoverage lat lng address now t cache).result.success = false ∧
    (checkCoverage lat lng address now t cache).result.coverage = [] ∧
    (checkCoverage lat lng address now t cache).result.errors = [] := by
  have hnil : technologyList.filterMap
      (fun tech => checkTechnologyCoverage tech (t.wms tech)) = [] :=
    List.filterMap_eq_nil_iff.mpr hwms
  have hR : getRealMTNCoverage t = none := by
    simp [getRealMTNCoverage, hnil]
  have hF : fallbackCoverage t = [] := by
    unfold fallbackCoverage
    rw [hp, hc, hw, hcon]
    rfl
  rw [checkCoverage_miss_fallback lat lng address now t cache hin hmiss hR]
  refine ⟨?_, ?_, rfl⟩
  · simp [hF]
  · simp [hF]

theorem c4_total_failure_empty_errors_witness :
    (isInSouthAfrica (-26) 28 = true ∧
     (getFromCache [] (cacheKey (-26) 28) 0).1 = none ∧
     (∀ tech ∈ technologyList,
       checkTechnologyCoverage tech (failingTransport.wms tech) = none) ∧
     tryPublicCoverageQuery failingTransport.publicQ = none ∧
     tryCoverageApiPoint failingTransport.pointQ = none ∧
     tryWMSFeatureInfo failingTransport.infoQ = none ∧
     tryAlternativeEndpoint failingTransport.consumerQ = none) ∧
    ((checkCoverage (-26) 28 none 0 failingTransport []).result.success = false ∧
     (checkCoverage (-26) 28 none 0 failingTransport []).result.coverage = [] ∧
     (checkCoverage (-26) 28 none 0 failingTransport []).result.errors = []) :=
  ⟨⟨by decide, rfl, by decide, rfl, rfl, rfl, rfl⟩,
   c4_total_failure_empty_errors (-26) 28 none 0 failingTransport []
     (by decide) rfl (by decide) rfl rfl rfl rfl⟩

/-- C4 counterexample to the claim as stated: at (-26, 28) with every
source throwing, the result has success false and empty coverage as the
claim says, but its errors list is empty instead of describing each
attempted source's failure. -/
theorem c4_counterexample :
    (checkCoverage (-26) 28 none 0 failingTransport []).result.success = false ∧
    (checkCoverage (-26) 28 none 0 failingTransport []).result.coverage = [] ∧
    (checkCoverage (-26) 28 none 0 failingTransport []).result.errors = [] := by
  with_unfolding_all decide

/-- A JSON feature collection as it reaches `parseCoverageResult` when
the proxy passes an `application/json` body through verbatim: the GeoJSON
`type` tag is "FeatureCollection", there is no wrapped `content` string,
and the `features` list is present. -/
def jsonCollectionResponse (fs : List Feature) : ProxyResponse :=
  { type := some "FeatureCollection", content := none, features := some fs }

/-- C5 (amended): in the direct interpreter a structured feature
collection yields an observation exactly when it has at least one feature,
and that observation carries available true (an empty collection yields no
observation at all rather than an available-false one); the proxy-client
interpreter, however, returns false for every structured JSON feature
collection regardless of feature count, because it only recognizes the
wrapped text and binary response shapes. -/
theorem c5_feature_collection_availability (tech : String) (fs : List Feature)
    (h : fs ≠ []) :
    (∃ o, checkTechnologyCoverage tech (FetchOutcome.okJson (some fs)) = some o ∧
       o.available = true) ∧
    checkTechnologyCoverage tech (FetchOutcome.okJson (some [])) = none ∧
    parseCoverageResult (some (jsonCollectionResponse fs)) = false := by
  refine ⟨?_, rfl, rfl⟩
  simp only [checkTechnologyCoverage]
  rw [if_pos (List.length_pos.mpr h)]
  exact ⟨_, rfl, rfl⟩

theorem c5_feature_collection_availability_witness :
    ([featTest] ≠ []) ∧
    ((∃ o, checkTechnologyCoverage "5G"
         (FetchOutcome.okJson (some [featTest])) = some o ∧
       o.available = true) ∧
     checkTechnologyCoverage "5G" (FetchOutcome.okJson (some [])) = none ∧
     parseCoverageResult (some (jsonCollectionResponse [featTest])) = false) :=
  ⟨by decide, c5_feature_collection_availability "5G" [featTest] (by decide)⟩

/-- C5 counterexample to the claim as stated: a structured feature
collection with one feature, handed to the proxy-client interpreter,
yields available false although its feature count is positive. -/
theorem c5_counterexample :
    0 < [featTest].length ∧
    parseCoverageResult (some (jsonCollectionResponse [featTest])) = false := by
  decide

/-- The strength tier exactly as C7 words it, as a function of the derived
quality score and the feature count. -/
def specStrengthTier (q : ℤ) (n : ℕ) : String :=
  if 85 ≤ q ∧ 3 ≤ n then "high"
  else if 65 ≤ q ∨ 2 ≤ n then "medium"
  else "low"

theorem clamp_le_iff (c q : ℤ) (h0 : 0 < c) (h100 : c ≤ 100) :
    c ≤ min 100 (max 0 q) ↔ c ≤ q := by
  rw [le_min_iff, le_max_iff]
  omega

/-- C7: the strength tier of every analysis equals the claimed function of
the derived (returned) quality score and the feature count; the [0, 100]
clamp on the returned quality does not move it across the 85 and 65
thresholds, so the tier computed from the pre-clamp quality coincides with
the claimed one. -/
theorem c7_strength_tier (features : List Feature) (tech : String) :
    (analyzeCoverageFeatures features tech).strength =
      specStrengthTier (analyzeCoverageFeatures features tech).quality
        features.length := by
  unfold analyzeCoverageFeatures
  by_cases h0 : features.length = 0
  · rw [if_pos h0, h0]
    rfl
  · rw [if_neg h0]
    simp only [specStrengthTier,
      clamp_le_iff 85 (analyzeQuality features tech) (by omega) (by omega),
      clamp_le_iff 65 (analyzeQuality features tech) (by omega) (by omega)]

/-- Positive numeric signal values of one feature, in property-table
order: the values `analyzeCoverageFeatures` actually accumulates. -/
def featureSignalValues (f : Feature) : List ℚ :=
  match f.properties with
  | none => []
  | some props =>
    signalProps.filterMap (fun p =>
      match propLookup props p with
      | some (JsProp.num v) => if 0 < v then some v else none
      | _ => none)

/-- All positive numeric signal values across a feature list. -/
def allPositiveSignalValues (features : List Feature) : List ℚ :=
  (features.map featureSignalValues).flatten

theorem foldl_signal_step (props : List (String × JsProp)) (l : List String)
    (acc : ℚ × ℕ) :
    l.foldl (fun a p =>
        match propLookup props p with
        | some (JsProp.num v) => if 0 < v then (a.1 + v, a.2 + 1) else a
        | _ => a) acc =
      (acc.1 + (l.filterMap (fun p =>
        match propLookup props p with
        | some (JsProp.num v) => if 0 < v then some v else none
        | _ => none)).sum,
       acc.2 + (l.filterMap (fun p =>
        match propLookup props p with
        | some (JsProp.num v) => if 0 < v then some v else none
        | _ => none)).length) := by
  induction l generalizing acc with
  | nil => simp
  | cons p l ih =>
    simp only [List.foldl_cons, List.filterMap_cons]
    cases hv : propLookup props p with
    | none =>
      dsimp only
      rw [ih]
    | some j =>
      cases j with
      | other =>
        dsimp only
        rw [ih]
      | num v =>
        dsimp only
        by_cases hpos : 0 < v
        · rw [if_pos hpos, if_pos hpos, ih]
          simp only [List.sum_cons, List.length_cons, Prod.mk.injEq]
          exact ⟨by ring, by omega⟩
        · rw [if_neg hpos, if_neg hpos, ih]

theorem featureAccum_eq (acc : ℚ × ℕ) (f : Feature) :
    featureAccum acc f =
      (acc.1 + (featureSignalValues f).sum,
       acc.2 + (featureSignalValues f).length) := by
  unfold featureAccum featureSignalValues
  cases f.properties with
  | none => simp
  | some props => exact foldl_signal_step props signalProps acc

theorem foldl_featureAccum_eq (features : List Feature) (acc : ℚ × ℕ) :
    features.foldl featureAccum acc =
      (acc.1 + (allPositiveSignalValues features).sum,
       acc.2 + (allPositiveSignalValues features).length) := by
  induction features generalizing acc with
  | nil => simp [allPositiveSignalValues]
  | cons f fs ih =>
    rw [List.foldl_cons, featureAccum_eq, ih]
    simp only [allPositiveSignalValues, List.map_cons, List.flatten_cons,
      List.sum_append, List.length_append, Prod.mk.injEq]
    exact ⟨by ring, by omega⟩

theorem analyzeQuality_eq (features : List Feature) (tech : String) :
    analyzeQuality features tech =
      if allPositiveSignalValues features = [] then defaultQuality tech
      else jsRound ((allPositiveSignalValues features).sum /
        ((allPositiveSignalValues features).length : ℚ)) := by
  unfold analyzeQuality
  rw [foldl_featureAccum_eq]
  by_cases hv : allPositiveSignalValues features = []
  · simp [hv]
  · have hlen : 0 < (allPositiveSignalValues features).length :=
      List.length_pos.mpr hv
    rw [if_pos (by simpa using hlen), if_neg hv]
    simp

/-- Written from the amended wording of C6: the quality score is the
rounded average of the positive numeric values of the signal-related
properties across all returned features — non-numeric values and numeric
values that are zero or negative are ignored — with the per-technology
default when no such value exists, and the result clamped to [0, 100]. -/
def amendedQualityC6 (features : List Feature) (tech : String) : ℤ :=
  min 100 (max 0
    (if allPositiveSignalValues features = [] then defaultQuality tech
     else jsRound ((allPositiveSignalValues features).sum /
       ((allPositiveSignalValues features).length : ℚ))))

/-- C6 (amended): for every non-empty feature list the derived quality
score equals the clamped average of the positive numeric signal values,
with the per-technology default as fallback. -/
theorem c6_quality_positive_average_clamped (features : List Feature)
    (tech : String) (h : features ≠ []) :
    (analyzeCoverageFeatures features tech).quality =
      amendedQualityC6 features tech := by
  unfold analyzeCoverageFeatures amendedQualityC6
  rw [if_neg (fun h0 => h (List.length_eq_zero.mp h0))]
  rw [analyzeQuality_eq]

theorem c6_quality_positive_average_clamped_witness :
    ([featTest] ≠ []) ∧
    (analyzeCoverageFeatures [featTest] "5G").quality =
      amendedQualityC6 [featTest] "5G" :=
  ⟨by decide,
   c6_quality_positive_average_clamped [featTest] "5G" (by decide)⟩

/-- Numeric signal values of one feature with no positivity filter, as C6
words it. -/
def featureNumericValues (f : Feature) : List ℚ :=
  match f.properties with
  | none => []
  | some props =>
    signalProps.filterMap (fun p =>
      match propLookup props p with
      | some (JsProp.num v) => some v
      | _ => none)

/-- All numeric signal values across a feature list, as C6 words it. -/
def allNumericSignalValues (features : List Feature) : List ℚ :=
  (features.map featureNumericValues).flatten

/-- Written from the words of C6 as stated: the average (rounded) of all
numeric values of the signal-related properties across the returned
features, the per-technology default only when no numeric signal property
is present, and no clamping. -/
def claimedQualityC6 (features : List Feature) (tech : String) : ℤ :=
  if allNumericSignalValues features = [] then defaultQuality tech
  else jsRound ((allNumericSignalValues features).sum /
    ((allNumericSignalValues features).length : ℚ))

/-- A feature whose signal property is numeric but zero. -/
def featZero : Feature := { properties := some [("signal", JsProp.num 0)] }

/-- C6 counterexample to the claim as stated: a single feature whose
`signal` property is the number 0. The claim's average over all numeric
signal values is 0, but the code ignores non-positive values
(`value > 0`), finds no usable value, and returns the 5G default 95. -/
theorem c6_counterexample :
    claimedQualityC6 [featZero] "5G" = 0 ∧
    (analyzeCoverageFeatures [featZero] "5G").quality = 95 := by
  with_unfolding_all decide

/-- A stored successful result, used as concrete cache content. -/
def storedResult : CoverageResult :=
  { success := true, lat := -26, lng := 28, address := "a",
    province := "Gauteng", timestamp := 0,
    coverage := [("publicQuery", SourceEntry.publicQuery)], errors := [] }

/-- C8 (amended): a cached entry is returned while now - createdAt is
strictly below the 300000 ms timeout; as soon as now - createdAt reaches
the timeout (in particular at exactly 300 s) the entry is treated as
absent and evicted on that access — eviction happens only on access
(there is no background sweep). -/
theorem c8_cache_ttl_strict (cache : Cache) (key : String) (now : ℤ)
    (e : CacheEntry) (hget : mapGet cache key = some e) :
    (now - e.timestamp < cacheTimeout →
       getFromCache cache key now = (some e.data, cache)) ∧
    (cacheTimeout ≤ now - e.timestamp →
       getFromCache cache key now = (none, mapDelete cache key)) := by
  unfold getFromCache
  rw [hget]
  dsimp only
  constructor
  · intro h
    rw [if_pos h]
  · intro h
    rw [if_neg (not_lt.mpr h)]

theorem c8_cache_ttl_strict_witness :
    (mapGet [("k", { data := storedResult, timestamp := 0 })] "k" =
       some { data := storedResult, timestamp := 0 }) ∧
    ((299999 - ({ data := storedResult, timestamp := 0 } : CacheEntry).timestamp <
        cacheTimeout →
       getFromCache [("k", { data := storedResult, timestamp := 0 })] "k" 299999 =
         (some ({ data := storedResult, timestamp := 0 } : CacheEntry).data,
          [("k", { data := storedResult, timestamp := 0 })])) ∧
     (cacheTimeout ≤
        299999 - ({ data := storedResult, timestamp := 0 } : CacheEntry).timestamp →
       getFromCache [("k", { data := storedResult, timestamp := 0 })] "k" 299999 =
         (none, mapDelete [("k", { data := storedResult, timestamp := 0 })] "k"))) :=
  ⟨by with_unfolding_all decide,
   c8_cache_ttl_strict [("k", { data := storedResult, timestamp := 0 })] "k" 299999
     { data := storedResult, timestamp := 0 } (by with_unfolding_all decide)⟩

/-- C8 counterexample to the claim as stated: at exactly the TTL boundary
(now - createdAt = 300000 ms, which "does not exceed" the 300 s TTL), the
code already reports a miss and evicts the entry, where the claim says the
stored result is still returned. -/
theorem c8_counterexample :
    cacheTimeout = 300000 ∧
    (getFromCache [("k", { data := storedResult, timestamp := 0 })] "k" 300000).1 =
      none ∧
    (getFromCache [("k", { data := storedResult, timestamp := 0 })] "k" 300000).2 =
      [] := by
  with_unfolding_all decide

theorem arctan_exp_log_tan (φ : ℝ) (h1 : 0 < φ) (h2 : φ < Real.pi / 2) :
    Real.arctan (Real.exp (Real.log (Real.tan φ))) = φ := by
  rw [Real.exp_log (Real.tan_pos_of_pos_of_lt_pi_div_two h1 h2)]
  exact Real.arctan_tan (by linarith [Real.pi_pos]) h2

/-- C9: for every latitude in [-85, 85] and every longitude, the forward
spherical Web Mercator projection (Earth radius 6378137 m) followed by the
standard inverse Mercator formula recovers the coordinates exactly over
the reals, hence in particular within the claimed 1e-6 degrees. -/
theorem c9_mercator_round_trip (lat lng : ℝ) (h1 : -85 ≤ lat) (h2 : lat ≤ 85) :
    |(inverseSphericalMercator (convertToSphericalMercator lat lng).1
        (convertToSphericalMercator lat lng).2).1 - lat| ≤ 1 / 1000000 ∧
    |(inverseSphericalMercator (convertToSphericalMercator lat lng).1
        (convertToSphericalMercator lat lng).2).2 - lng| ≤ 1 / 1000000 := by
  have hπ : 0 < Real.pi := Real.pi_pos
  have hπ0 : Real.pi ≠ 0 := ne_of_gt hπ
  have hR : (6378137 : ℝ) ≠ 0 := by norm_num
  have hφ1 : 0 < lat * Real.pi / 180 / 2 + Real.pi / 4 := by
    nlinarith [mul_nonneg (by linarith : (0:ℝ) ≤ lat + 85) hπ.le]
  have hφ2 : lat * Real.pi / 180 / 2 + Real.pi / 4 < Real.pi / 2 := by
    nlinarith [mul_nonneg (by linarith : (0:ℝ) ≤ 85 - lat) hπ.le]
  have hlat : (inverseSphericalMercator (convertToSphericalMercator lat lng).1
      (convertToSphericalMercator lat lng).2).1 = lat := by
    show (2 * Real.arctan (Real.exp
        (Real.log (Real.tan (lat * Real.pi / 180 / 2 + Real.pi / 4)) *
          6378137 / 6378137)) - Real.pi / 2) * 180 / Real.pi = lat
    rw [mul_div_cancel_right₀ _ hR, arctan_exp_log_tan _ hφ1 hφ2]
    field_simp
    ring
  have hlng : (inverseSphericalMercator (convertToSphericalMercator lat lng).1
      (convertToSphericalMercator lat lng).2).2 = lng := by
    show lng * Real.pi / 180 * 6378137 / 6378137 * 180 / Real.pi = lng
    rw [mul_div_cancel_right₀ _ hR]
    field_simp
  rw [hlat, hlng]
  norm_num

theorem c9_mercator_round_trip_witness :
    ((-85 : ℝ) ≤ 0 ∧ (0 : ℝ) ≤ 85) ∧
    (|(inverseSphericalMercator (convertToSphericalMercator 0 0).1
         (convertToSphericalMercator 0 0).2).1 - 0| ≤ 1 / 1000000 ∧
     |(inverseSphericalMercator (convertToSphericalMercator 0 0).1
         (convertToSphericalMercator 0 0).2).2 - 0| ≤ 1 / 1000000) :=
  ⟨⟨by norm_num, by norm_num⟩,
   c9_mercator_round_trip 0 0 (by norm_num) (by norm_num)⟩

end MTNCoverage
